import Mathlib

/-!
Verification of the `itvx` module of the itvx-for-kodi addon
(`plugin.video.itvhub/resources/lib/itvx.py`).

The module is a fetch-parse-transform layer: it fetches HTML/JSON pages
from the broadcaster's site, scrapes structured data out of them and
reshapes that data into listitem dictionaries for the Kodi/codequick host.

Modelling choices:
* Python dictionaries produced by the module are embedded as association
  lists `List (String × Val)` over a JSON-like value type `Val`, so that
  claims about the presence of keys are directly statable.
* Fetched documents/JSON are inputs: each operation takes the (typed)
  data its page fetch would return.  Fallible fetching is modelled by
  `Except Err`-valued fetch results; the operations thread them with `do`
  exactly where the source performs its fetch calls.
* Library helpers that live outside this repository (`parsex`,
  `utils`, `str.format` with image-property dictionaries, time-zone
  conversion via `tzlocal`/`pytz`/`strftime`) are abstracted as
  environment functions carried in `*Env` structures; the module under
  verification only pipes data through them.
* Module-level state (`FEATURE_SET`, `PLATFORM_TAG`, `cached_programs`,
  `CACHE_TIME`) is a `ModuleState` record threaded through the stateful
  wrappers; `clock` models the ambient wall clock (the source never reads
  it in this module).
-/

/-- JSON-like values, the codomain of scraping and the payload of the
produced listitem dictionaries. -/
inductive Val where
  | vnull : Val
  | vbool : Bool → Val
  | vnat : Nat → Val
  | vstr : String → Val
  | vlist : List Val → Val
  | vdict : List (String × Val) → Val

/-- Python `d.get(key)` on an association-list dictionary. -/
def getKey (d : List (String × Val)) (k : String) : Option Val :=
  match d with
  | [] => none
  | (k', v) :: rest => if k' == k then some v else getKey rest k

/-- Whether an association-list dictionary contains a key. -/
def hasKey (d : List (String × Val)) (k : String) : Bool :=
  d.any (fun p => p.1 == k)

/-- Python `value or default-empty`: an optional string, `None` mapping
to `Val.vnull` (as `dict.get` without default does). -/
def optStr (o : Option String) : Val :=
  match o with
  | some s => Val.vstr s
  | none => Val.vnull

/-- Render an optional episode count the way `str.format` renders the
result of `dict.get(key, '')`. -/
def natOrEmpty (o : Option Nat) : String :=
  match o with
  | some n => toString n
  | none => ""

/-- An error raised by a fetch (network failure, HTTP error, parse
error inside the fetch helper).  The module never inspects it. -/
structure Err where
  msg : String
deriving DecidableEq, Repr

/-- Module-level constant FEATURE_SET of itvx.py. -/
def FEATURE_SET : String :=
  "hd,progressive,single-track,mpeg-dash,widevine,widevine-download,inband-ttml,hls,aes,inband-webvtt,outband-webvtt,inband-audio-description"

/-- Module-level constant PLATFORM_TAG of itvx.py. -/
def PLATFORM_TAG : String := "mobile"

/-- Module-level constant CACHE_TIME of itvx.py. -/
def CACHE_TIME : Nat := 600

/-- The module-level variables of itvx.py, together with the ambient
wall clock.  `cached_programs` maps a page URL to the time the entry was
stored and the stored data. -/
structure ModuleState where
  feature_set : String
  platform_tag : String
  cache_time : Nat
  cached_programs : List (String × Nat × Val)
  clock : Nat

/-- The initial module state: the constants as defined at import time
and an empty `cached_programs` dictionary. -/
def initState (clock : Nat) : ModuleState :=
  { feature_set := FEATURE_SET
    platform_tag := PLATFORM_TAG
    cache_time := CACHE_TIME
    cached_programs := []
    clock := clock }

/-- The fetch/scrape environment of `get_page_data`: `fetch.get_document`
and `parsex.scrape_json`, both outside this module. -/
structure FetchEnv where
  get_document : String → String
  scrape_json : String → Val

/-- Python `s.startswith(p)`: code-point-level prefix test. -/
def strStartsWith (s p : String) : Bool :=
  p.data.isPrefixOf s.data

/-- Python `s.lower()` (over the ASCII range the module feeds it). -/
def strToLower (s : String) : String :=
  String.mk (s.data.map Char.toLower)

/-- Python slicing `s[:n]`: the first `n` code points. -/
def strTake (s : String) (n : Nat) : String :=
  String.mk (s.data.take n)

/-- Python slicing `s[n:]`: the code points from index `n` on. -/
def strDrop (s : String) (n : Nat) : String :=
  String.mk (s.data.drop n)

/-- Python `s.replace(pat, repl)` for a single-character pattern and
replacement, the only form the module uses. -/
def replaceChar (s : String) (pat repl : Char) : String :=
  String.mk (s.data.map (fun c => if c == pat then repl else c))

/-- URL resolution performed at the top of `get_page_data`: relative
URLs are made absolute against the itv.com host. -/
def resolveUrl (url : String) : String :=
  if strStartsWith url "https://" then url else "https://www.itv.com" ++ url

/-- Embedding of `get_page_data(url)`.  Besides the scraped result it
returns the module state after the call and the trace of URLs fetched
during the call (the source fetches unconditionally and never touches
`cached_programs`, so the state passes through and the trace is the one
resolved URL). -/
def get_page_data (env : FetchEnv) (st : ModuleState) (url : String) :
    ModuleState × Val × List String :=
  let u := resolveUrl url
  let html_doc := env.get_document u
  (st, env.scrape_json html_doc, [u])

/-- A programme of the now/next JSON of a fast channel: the fields of
`slots['now']` / `slots['next']` that `get_live_channels` reads.  An
absent or empty `detailedDisplayTitle` is the empty string (falsy). -/
structure SlotProg where
  displayTitle : String
  detailedDisplayTitle : String
  start : String

/-- The `slots` object of a channel of the now/next JSON. -/
structure Slots where
  now : SlotProg
  next : SlotProg

/-- A channel of the now/next JSON: the fields `get_live_channels`
reads (`id`, `channelType`, `slots`). -/
structure NNChannel where
  id : String
  channelType : String
  slots : Slots

/-- The now/next JSON document fetched from nownext.oasvc.itv.com:
the backdrop image URL under `images` and the channel list. -/
structure LiveData where
  backdrop : String
  channels : List NNChannel

/-- An entry of the full live schedule returned by
`itv.get_live_schedule()` (outside this module): the channel name it is
for and its slot list, whose entries are opaque to this module. -/
structure MainChan (α : Type) where
  channelName : String
  slot : List α

/-- A programme entry built by `get_live_channels` from now/next data. -/
structure OutProgEntry where
  programme_details : String
  programmeTitle : String
  orig_start : Option String
  startTime : String
deriving DecidableEq, Repr

/-- The `slot` value of a produced channel: either the slot list taken
over from the full live schedule or the two-entry list built from the
channel's own now/next data. -/
inductive ChannelSlot (α : Type) where
  | sched : List α → ChannelSlot α
  | nowNext : List OutProgEntry → ChannelSlot α

/-- A channel dictionary as returned by `get_live_channels`: the fields
it read from the input plus the added `backdrop` and `slot` entries
(`slots` has been popped). -/
structure OutChannel (α : Type) where
  id : String
  channelType : String
  backdrop : String
  slot : ChannelSlot α

/-- The local-time rendering `start[:19] → strptime → astimezone →
strftime('%H:%M')` of `get_live_channels`; the time-zone conversion
itself is environment (`tzlocal`, `pytz`) and is a parameter. -/
def slotStartTime (localTime : String → String) (start : String) : String :=
  localTime (strTake start 19)

/-- One iteration of the `for prog in (slots['now'], slots['next'])`
loop body of `get_live_channels`. -/
def buildProg (localTime : String → String) (prog : SlotProg) : OutProgEntry :=
  let details :=
    if prog.detailedDisplayTitle ≠ "" then
      prog.displayTitle ++ ": " ++ prog.detailedDisplayTitle
    else
      prog.displayTitle
  { programme_details := details
    programmeTitle := prog.displayTitle
    orig_start := none
    startTime := slotStartTime localTime prog.start }

/-- First entry of the main schedule whose channel name equals the
given channel id, as found by the inner `for main_chan in main_schedule`
loop (which breaks on the first match). -/
def findMainSlot (sched : List (MainChan α)) (chanId : String) : Option (List α) :=
  match sched with
  | [] => none
  | m :: rest => if m.channelName == chanId then some m.slot else findMainSlot rest chanId

/-- Body of the `for channel in channels` loop of `get_live_channels`:
add the backdrop, and for simulcast channels take the slot list of the
first matching schedule entry when that list is truthy (non-empty);
otherwise build the two-entry now/next slot list. -/
def processChannel (localTime : String → String) (fanart : String)
    (sched : List (MainChan α)) (ch : NNChannel) : OutChannel α :=
  let nn : List OutProgEntry :=
    [buildProg localTime ch.slots.now, buildProg localTime ch.slots.next]
  if ch.channelType == "simulcast" then
    match findMainSlot sched ch.id with
    | some s =>
        if s.isEmpty then
          { id := ch.id, channelType := ch.channelType, backdrop := fanart, slot := .nowNext nn }
        else
          { id := ch.id, channelType := ch.channelType, backdrop := fanart, slot := .sched s }
    | none =>
        { id := ch.id, channelType := ch.channelType, backdrop := fanart, slot := .nowNext nn }
  else
    { id := ch.id, channelType := ch.channelType, backdrop := fanart, slot := .nowNext nn }

/-- Embedding of `get_live_channels()` applied to the fetched now/next
document and the fetched full live schedule. -/
def get_live_channels (localTime : String → String) (live_data : LiveData)
    (main_schedule : List (MainChan α)) : List (OutChannel α) :=
  live_data.channels.map (processChannel localTime live_data.backdrop main_schedule)

/-- One series entry of the brand data of a programme page: the fields
`episodes(url)` reads. -/
structure SeriesData where
  title : String
  seriesNumber : Nat
  seriesAvailableEpisodeCount : Nat
  episodes : List Val

/-- The `['title']['brand']` object of a programme page, as read by
`episodes(url)`.  `synopses_ninety` models `synopses.get('ninety', '')`:
`none` when the key is absent. -/
structure BrandData where
  title : String
  synopses_ninety : Option String
  series : List SeriesData

/-- External helpers used by `episodes`: `str.format` applied with the
thumbnail/fanart image-property dictionaries of `parsex`, and
`parsex.parse_title(episode, brand_fanart)`. -/
structure EpisodesEnv where
  fmtThumb : String → String
  fmtFanart : String → String
  parse_title : Val → String → Val

/-- Embedding of `episodes(url)` applied to the brand data of the
fetched page.  Note the source quirk kept here: the thumb and fanart
are built by formatting `brand_data['title']` (a title string), not an
image-template field. -/
def episodes (env : EpisodesEnv) (url : String) (brand_data : BrandData) :
    List (List (String × Val)) :=
  let brand_title := brand_data.title
  let brand_thumb := env.fmtThumb brand_data.title
  let brand_fanart := env.fmtFanart brand_data.title
  let brand_description := brand_data.synopses_ninety.getD ""
  let series_data := brand_data.series
  if series_data.isEmpty then
    []
  else
    series_data.map (fun series =>
      let title := series.title
      let series_idx := series.seriesNumber
      [("label", Val.vstr title),
       ("art", Val.vdict [("thumb", Val.vstr brand_thumb),
                          ("fanart", Val.vstr brand_fanart)]),
       ("info", Val.vdict
          [("title", Val.vstr ("[B]" ++ brand_title ++ " - " ++ series.title ++ "[/B]")),
           ("plot", Val.vstr (brand_description ++ "\n\n" ++ title ++ " - "
              ++ toString series.seriesAvailableEpisodeCount ++ " episodes"))]),
       ("params", Val.vdict [("url", Val.vstr url),
                             ("series_idx", Val.vnat series_idx)]),
       ("episodes", Val.vlist (series.episodes.map
          (fun episode => env.parse_title episode brand_fanart)))])

/-- One entry of `data['subnav']['items']` of the categories page, as
read by `categories()`. -/
structure CatItem where
  name : String
  url : String

/-- Embedding of `categories()` applied to the subnav item list of the
fetched categories page. -/
def categories (cat_list : List CatItem) : List (List (String × Val)) :=
  cat_list.map (fun cat =>
    [("label", Val.vstr cat.name),
     ("params", Val.vdict [("path", Val.vstr cat.url)])])

/-- One entry of the `programmes` list of a category page: the fields
`category_content` reads.  `tier` is the list the membership test
`'FREE' in prog['tier']` runs over. -/
structure Programme where
  contentInfo : String
  title : String
  tier : List String
  description : String
  imageTemplate : String
  encodedProgrammeId : String
  encodedEpisodeId : String

/-- A category page as read by `category_content`: the category's
`pathSegment` and its programme list. -/
structure CatPage where
  pathSegment : String
  programmes : List Programme

/-- External helpers used by `category_content`: `str.format` of the
image template with the three image-property dictionaries of `parsex`,
`utils.duration_2_seconds`, and `parsex.build_url` with two and three
arguments. -/
structure CatEnv where
  fmtThumb : String → String
  fmtFanart : String → String
  fmtPoster : String → String
  duration_2_seconds : String → Val
  build_url2 : String → String → String
  build_url3 : String → String → String → String

/-- The premium marker `category_content` appends to the plot of a
non-free programme. -/
def premiumMarker : String := "[COLOR yellow]X premium[/COLOR]"

/-- The `programme_item` dictionary built by the loop body of
`category_content` for one programme, given the plot chosen by the tier
branch. -/
def cc_show_item (env : CatEnv) (category : String) (prog : Programme)
    (plot : String) : List (String × Val) :=
  let content_info := prog.contentInfo
  let is_playable := !(strStartsWith (strToLower content_info) "series")
  let title := prog.title
  let sort_title := strToLower title
  let art :=
    [("thumb", Val.vstr (env.fmtThumb prog.imageTemplate)),
     ("fanart", Val.vstr (env.fmtFanart prog.imageTemplate))]
    ++ (if category == "films" then [("poster", Val.vstr (env.fmtPoster prog.imageTemplate))] else [])
  let info :=
    [("title", Val.vstr (if is_playable then title else "[B]" ++ title ++ "[/B] " ++ content_info)),
     ("plot", Val.vstr plot),
     ("sorttitle", Val.vstr (if strStartsWith sort_title "the " then strDrop sort_title 4 else sort_title))]
    ++ (if is_playable then [("duration", env.duration_2_seconds content_info)] else [])
  let params :=
    if is_playable then
      [("url", Val.vstr (env.build_url2 title prog.encodedProgrammeId))]
    else
      [("url", Val.vstr (env.build_url3 title prog.encodedProgrammeId prog.encodedEpisodeId))]
  [("label", Val.vstr title),
   ("art", Val.vdict art),
   ("info", Val.vdict info),
   ("params", Val.vdict params)]

/-- The dictionary yielded by `category_content` for one programme:
the playable flag and the show item. -/
def cc_yield (env : CatEnv) (category : String) (prog : Programme)
    (plot : String) : List (String × Val) :=
  [("playable", Val.vbool (!(strStartsWith (strToLower prog.contentInfo) "series"))),
   ("show", Val.vdict (cc_show_item env category prog plot))]

/-- Embedding of `category_content(url, hide_payed)` applied to the
fetched category page: the list of dictionaries the generator yields. -/
def category_content (env : CatEnv) (cat_data : CatPage) (hide_payed : Bool) :
    List (List (String × Val)) :=
  let category := cat_data.pathSegment
  cat_data.programmes.filterMap (fun prog =>
    if "FREE" ∈ prog.tier then
      some (cc_yield env category prog prog.description)
    else if hide_payed then
      none
    else
      some (cc_yield env category prog (prog.description ++ "\n\n" ++ premiumMarker)))

/-- The fields of a search result's `data` object read by
`parse_programme` inside `search`. -/
structure ProgrammeData where
  programmeTitle : String
  latestAvailableEpisodeImageHref : String
  synopsis : Option String
  totalAvailableEpisodes : Option Nat
  legacyIdApiEncoded : String

/-- The fields of a search result's `data` object read by
`parse_special` inside `search`. -/
structure SpecialData where
  specialTitle : String
  imageHref : String
  synopsis : Option String
  productionId : String

/-- One entry of the `results` list of the search response: its
`entityType` and its `data` object, of which `progData` are the fields
read when the type is `programme` and `specData` those read when it is
`special`. -/
structure SearchResult where
  entityType : String
  progData : ProgrammeData
  specData : SpecialData

/-- The JSON returned by the search endpoint, when not `None`. -/
structure SearchPage where
  results : List SearchResult

/-- External helper used by `search`: `str.format` of an image href
with the fixed width/height/quality/blur/bg arguments. -/
structure SearchEnv where
  fmtSearchImg : String → String

/-- The production-id rewriting of `parse_special`:
`productionId.replace('/', '_').replace('#', '.')`. -/
def apiProdId (productionId : String) : String :=
  replaceChar (replaceChar productionId '/' '_') '#' '.'

/-- Embedding of the inner `parse_programme` of `search`. -/
def parse_programme (env : SearchEnv) (prg_data : ProgrammeData) :
    List (String × Val) :=
  let prog_name := prg_data.programmeTitle
  let img_url := prg_data.latestAvailableEpisodeImageHref
  [("entity_type", Val.vstr "programme"),
   ("label", Val.vstr prog_name),
   ("art", Val.vdict [("thumb", Val.vstr (env.fmtSearchImg img_url))]),
   ("info", Val.vdict
      [("plot", optStr prg_data.synopsis),
       ("title", Val.vstr ("[B]" ++ prog_name ++ "[/B] - "
          ++ natOrEmpty prg_data.totalAvailableEpisodes ++ " episodes"))]),
   ("params", Val.vdict
      [("url", Val.vstr ("https://discovery.hubsvc.itv.com/platform/itvonline/dotcom/productions?programmeId="
          ++ prg_data.legacyIdApiEncoded
          ++ "&features=aes,clearkey,fairplay,hls,mpeg-dash,outband-webvtt,playready,widevine&broadcaster=itv")),
       ("name", Val.vstr prog_name)])]

/-- Embedding of the inner `parse_special` of `search`.  The source
closure reads `program_data` (the loop variable) for the title and the
image instead of its own parameter; at its only call site the two are
the same object, and the embedding reads the passed data. -/
def parse_special (env : SearchEnv) (prg_data : SpecialData) :
    List (String × Val) :=
  let prog_name := prg_data.specialTitle
  let img_url := prg_data.imageHref
  let api_prod_id := apiProdId prg_data.productionId
  [("entity_type", Val.vstr "special"),
   ("label", Val.vstr prog_name),
   ("art", Val.vdict [("thumb", Val.vstr (env.fmtSearchImg img_url))]),
   ("info", Val.vdict
      [("plot", optStr prg_data.synopsis),
       ("title", Val.vstr prog_name)]),
   ("params", Val.vdict
      [("url", Val.vstr ("https://magni.itv.com/playlist/itvonline/ITV/" ++ api_prod_id)),
       ("name", Val.vstr prog_name)])]

/-- Routing of one search result by the final loop of `search`:
programmes and specials are parsed, anything else is logged and
skipped. -/
def routeResult (env : SearchEnv) (result : SearchResult) :
    Option (List (String × Val)) :=
  if result.entityType == "programme" then
    some (parse_programme env result.progData)
  else if result.entityType == "special" then
    some (parse_special env result.specData)
  else
    none

/-- Embedding of `search(search_term)` applied to the fetched JSON:
when the fetch returned `None` the generator returns immediately and
yields nothing; otherwise each result is routed by entity type. -/
def search (env : SearchEnv) (data : Option SearchPage) :
    List (List (String × Val)) :=
  match data with
  | none => []
  | some d => d.results.filterMap (routeResult env)

/-- The literal part of the regex `data-video-id="(.+?)"` used by
`get_playlist_url_from_episode_page`. -/
def vidLit : List Char := "data-video-id=\"".data

/-- Match of `(.+?)"` (with `.` not matching a newline) at the start of
the given characters: the shortest non-empty newline-free run followed
by a double quote, or `none` when no such run starts here. -/
def capturedAt (cs : List Char) : Option (List Char) :=
  match cs with
  | [] => none
  | c :: t =>
    let run := t.takeWhile (fun ch => ch != '"')
    if c != '\n' && run.all (fun ch => ch != '\n') && (t.drop run.length).head? == some '"' then
      some (c :: run)
    else
      none

/-- Leftmost match of the regex `data-video-id="(.+?)"` over the
document's characters, as `re.search` finds it; `none` when the
document has no match. -/
def findVideoId : List Char → Option String
  | [] => none
  | c :: rest =>
    if vidLit.isPrefixOf (c :: rest) then
      match capturedAt ((c :: rest).drop vidLit.length) with
      | some v => some (String.mk v)
      | none => findVideoId rest
    else
      findVideoId rest

/-- Embedding of `get_playlist_url_from_episode_page(page_url)` applied
to the result of its document fetch.  A fetch error propagates; on a
document without a regex match the subscript `[1]` of `None` raises a
`TypeError`, modelled as an error value. -/
def get_playlist_url_from_episode_page (fetchRes : Except Err String) :
    Except Err (String × String) := do
  let html_doc ← fetchRes
  let name := ""
  match findVideoId html_doc.data with
  | some play_list_url => pure (play_list_url, name)
  | none => throw { msg := "TypeError" }

/-- Fetch-threaded form of `get_page_data`: the document fetch may
fail, and the scrape runs on the fetched document. -/
def get_page_dataE (env : FetchEnv) (fetchRes : String → Except Err String)
    (url : String) : Except Err Val := do
  let html_doc ← fetchRes (resolveUrl url)
  pure (env.scrape_json html_doc)

/-- Fetch-threaded form of `get_live_channels`: first the now/next JSON
fetch, then the full-schedule fetch, in source order. -/
def get_live_channelsE (localTime : String → String)
    (liveRes : Except Err LiveData) (schedRes : Except Err (List (MainChan α))) :
    Except Err (List (OutChannel α)) := do
  let live_data ← liveRes
  let main_schedule ← schedRes
  pure (get_live_channels localTime live_data main_schedule)

/-- Fetch-threaded form of `episodes`: the page fetch may fail. -/
def episodesE (env : EpisodesEnv) (url : String)
    (pageRes : Except Err BrandData) : Except Err (List (List (String × Val))) := do
  let brand_data ← pageRes
  pure (episodes env url brand_data)

/-- Fetch-threaded form of `categories`: the page fetch may fail. -/
def categoriesE (pageRes : Except Err (List CatItem)) :
    Except Err (List (List (String × Val))) := do
  let cat_list ← pageRes
  pure (categories cat_list)

/-- Fetch-threaded form of `category_content`: the page fetch may
fail. -/
def category_contentE (env : CatEnv) (pageRes : Except Err CatPage)
    (hide_payed : Bool) : Except Err (List (List (String × Val))) := do
  let cat_data ← pageRes
  pure (category_content env cat_data hide_payed)

/-- Fetch-threaded form of `search`: the JSON fetch may fail (a `None`
response is a successful fetch carrying `none`). -/
def searchE (env : SearchEnv) (fetchRes : Except Err (Option SearchPage)) :
    Except Err (List (List (String × Val))) := do
  let data ← fetchRes
  pure (search env data)

/-- External helper used by `main_page_items`:
`parsex.parse_hero_content`. -/
structure MainPageEnv where
  parse_hero_content : Val → Val

/-- Embedding of `main_page_items()` applied to the `heroContent` list
of the fetched main page. -/
def main_page_items (env : MainPageEnv) (heroContent : List Val) : List Val :=
  heroContent.map env.parse_hero_content

/-- State-threaded form of `get_live_channels`: the source reads the
module-level `FEATURE_SET` and `PLATFORM_TAG` into its request
parameters and assigns no module-level variable. -/
def get_live_channels_st (localTime : String → String) (st : ModuleState)
    (live_data : LiveData) (main_schedule : List (MainChan α)) :
    ModuleState × List (OutChannel α) :=
  (st, get_live_channels localTime live_data main_schedule)

/-- State-threaded form of `main_page_items`: it calls `get_page_data`
(which leaves the state unchanged) and assigns no module-level
variable. -/
def main_page_items_st (fenv : FetchEnv) (env : MainPageEnv) (st : ModuleState)
    (heroContent : List Val) : ModuleState × List Val :=
  let st' := (get_page_data fenv st "https://www.itv.com").1
  (st', main_page_items env heroContent)

/-- State-threaded form of `episodes`. -/
def episodes_st (fenv : FetchEnv) (env : EpisodesEnv) (st : ModuleState)
    (url : String) (brand_data : BrandData) :
    ModuleState × List (List (String × Val)) :=
  let st' := (get_page_data fenv st url).1
  (st', episodes env url brand_data)

/-- State-threaded form of `categories`. -/
def categories_st (fenv : FetchEnv) (st : ModuleState) (cat_list : List CatItem) :
    ModuleState × List (List (String × Val)) :=
  let st' := (get_page_data fenv st "https://www.itv.com/watch/categories").1
  (st', categories cat_list)

/-- State-threaded form of `category_content`. -/
def category_content_st (fenv : FetchEnv) (env : CatEnv) (st : ModuleState)
    (url : String) (cat_data : CatPage) (hide_payed : Bool) :
    ModuleState × List (List (String × Val)) :=
  let st' := (get_page_data fenv st url).1
  (st', category_content env cat_data hide_payed)

/-- State-threaded form of `get_playlist_url_from_episode_page`. -/
def get_playlist_url_from_episode_page_st (st : ModuleState)
    (fetchRes : Except Err String) :
    ModuleState × Except Err (String × String) :=
  (st, get_playlist_url_from_episode_page fetchRes)

/-- State-threaded form of `search`. -/
def search_st (env : SearchEnv) (st : ModuleState) (data : Option SearchPage) :
    ModuleState × List (List (String × Val)) :=
  (st, search env data)

/-- A concrete fetch environment for concrete evaluations. -/
def envA : FetchEnv :=
  { get_document := fun _ => "doc", scrape_json := fun _ => Val.vnull }

/-- A concrete episodes environment. -/
def eenvA : EpisodesEnv :=
  { fmtThumb := fun _ => "T", fmtFanart := fun _ => "F",
    parse_title := fun _ _ => Val.vnull }

/-- A concrete brand-data fixture with one series. -/
def brandA : BrandData :=
  { title := "B", synopses_ninety := none
    series := [{ title := "S", seriesNumber := 1,
                 seriesAvailableEpisodeCount := 2, episodes := [] }] }

/-- The series item `episodes eenvA "u" brandA` produces. -/
def epItemA : List (String × Val) :=
  [("label", Val.vstr "S"),
   ("art", Val.vdict [("thumb", Val.vstr "T"), ("fanart", Val.vstr "F")]),
   ("info", Val.vdict [("title", Val.vstr "[B]B - S[/B]"),
                       ("plot", Val.vstr "\n\nS - 2 episodes")]),
   ("params", Val.vdict [("url", Val.vstr "u"), ("series_idx", Val.vnat 1)]),
   ("episodes", Val.vlist [])]

/-- A concrete search environment. -/
def senvA : SearchEnv := { fmtSearchImg := fun _ => "I" }

/-- Concrete programme data of a search result. -/
def progDataA : ProgrammeData :=
  { programmeTitle := "The Chase", latestAvailableEpisodeImageHref := "img",
    synopsis := none, totalAvailableEpisodes := some 3, legacyIdApiEncoded := "1_2" }

/-- Concrete special data of a search result. -/
def specDataA : SpecialData :=
  { specialTitle := "Sp", imageHref := "img", synopsis := none,
    productionId := "1/2#3" }

/-- A concrete programme-typed search result. -/
def resultA : SearchResult :=
  { entityType := "programme", progData := progDataA, specData := specDataA }

/-- A concrete search result of an unknown entity type. -/
def badResultA : SearchResult :=
  { entityType := "video", progData := progDataA, specData := specDataA }

/-- A concrete search page with one programme result. -/
def pageA : SearchPage := { results := [resultA] }

/-- The item `search senvA (some pageA)` produces. -/
def searchItemA : List (String × Val) := parse_programme senvA progDataA

/-- A concrete category-content environment. -/
def cenvA : CatEnv :=
  { fmtThumb := fun _ => "T", fmtFanart := fun _ => "F", fmtPoster := fun _ => "P",
    duration_2_seconds := fun _ => Val.vnat 0,
    build_url2 := fun _ _ => "u2", build_url3 := fun _ _ _ => "u3" }

/-- A concrete free-tier programme of a category page. -/
def progFreeA : Programme :=
  { contentInfo := "24 min", title := "The Chase", tier := ["FREE"],
    description := "d", imageTemplate := "t",
    encodedProgrammeId := "p", encodedEpisodeId := "e" }

/-- A concrete paid-tier programme of a category page. -/
def progPayA : Programme :=
  { contentInfo := "24 min", title := "Paid Show", tier := ["PAID"],
    description := "d", imageTemplate := "t",
    encodedProgrammeId := "p", encodedEpisodeId := "e" }

/-- A concrete category page with a free and a paid programme. -/
def catPageA : CatPage :=
  { pathSegment := "films", programmes := [progFreeA, progPayA] }

/-- The first item `category_content cenvA catPageA false` yields. -/
def ccItemA : List (String × Val) := cc_yield cenvA "films" progFreeA "d"

/-- A concrete subnav item list of the categories page. -/
def catListA : List CatItem :=
  [{ name := "Drama", url := "/watch/categories/drama" }]

/-- The item `categories catListA` produces. -/
def catItemA : List (String × Val) :=
  [("label", Val.vstr "Drama"),
   ("params", Val.vdict [("path", Val.vstr "/watch/categories/drama")])]

/-- A concrete local-time rendering environment. -/
def localTimeA : String → String := fun _ => "12:00"

/-- A concrete fast (non-simulcast) channel of the now/next JSON. -/
def chanA : NNChannel :=
  { id := "itvx1", channelType := "fast"
    slots := { now := { displayTitle := "N", detailedDisplayTitle := "", start := "2024-01-01T12:00:00Z" }
               next := { displayTitle := "X", detailedDisplayTitle := "d", start := "2024-01-01T13:00:00Z" } } }

/-- A concrete now/next document with one fast channel. -/
def liveDataA : LiveData := { backdrop := "bg", channels := [chanA] }

/-- A concrete (empty) full live schedule. -/
def schedA : List (MainChan Unit) := []

/-- A concrete main-page environment. -/
def menvA : MainPageEnv := { parse_hero_content := fun _ => Val.vnull }

/-- C10: `get_page_data` fetches exactly `'https://www.itv.com' + url`
when `url` does not start with `'https://'`, fetches `url` unchanged
when it does, and returns the scraped JSON of the fetched document. -/
theorem get_page_data_url_resolution (env : FetchEnv) (st : ModuleState) (url : String) :
    (strStartsWith url "https://" = true → (get_page_data env st url).2.2 = [url]) ∧
    (strStartsWith url "https://" = false →
      (get_page_data env st url).2.2 = ["https://www.itv.com" ++ url]) ∧
    (get_page_data env st url).2.1
      = env.scrape_json (env.get_document (resolveUrl url)) := by
  refine ⟨?_, ?_, rfl⟩ <;> intro h <;> simp [get_page_data, resolveUrl, h]

/-- Witness for C10 at a concrete absolute and a concrete relative URL. -/
theorem get_page_data_url_resolution_witness :
    (get_page_data envA (initState 0) "https://www.itv.com/watch").2.2
        = ["https://www.itv.com/watch"] ∧
    (get_page_data envA (initState 0) "/watch").2.2
        = ["https://www.itv.com" ++ "/watch"] :=
  ⟨(get_page_data_url_resolution envA (initState 0) "https://www.itv.com/watch").1 (by decide),
   (get_page_data_url_resolution envA (initState 0) "/watch").2.1 (by decide)⟩

/-- C1 counterexample: a first call to `get_page_data` at clock 0 and a
second call with the same URL at the same clock (0 seconds later, well
within CACHE_TIME) still fetches the page, and the first call stored
nothing in `cached_programs`. -/
theorem get_page_data_cache_counterexample :
    ((get_page_data envA (initState 0) "/watch").1).clock - 0 < CACHE_TIME ∧
    ((get_page_data envA (initState 0) "/watch").1).cached_programs = [] ∧
    (get_page_data envA ((get_page_data envA (initState 0) "/watch").1) "/watch").2.2 ≠ [] := by
  refine ⟨by decide, rfl, ?_⟩
  simp [get_page_data]

/-- C1 (amended): `cached_programs` and `CACHE_TIME` are defined but
never consulted; every call to `get_page_data`, whatever the cache
contents and the clock, performs exactly one fetch of the resolved URL
and leaves all module state, the cache included, unchanged. -/
theorem get_page_data_always_fetches (env : FetchEnv) (st : ModuleState) (url : String) :
    (get_page_data env st url).1 = st ∧
    (get_page_data env st url).2.2 = [resolveUrl url] :=
  ⟨rfl, rfl⟩

/-- C3: a fetch failure propagates unchanged out of every fetching
operation: no operation catches it, substitutes a default result or
retries.  For `get_live_channels` both fetches are covered, in source
order (the schedule fetch only happens after the now/next fetch
succeeded). -/
theorem fetch_errors_propagate (e : Err) :
    (∀ (env : FetchEnv) (fetchRes : String → Except Err String) (url : String),
        fetchRes (resolveUrl url) = Except.error e →
        get_page_dataE env fetchRes url = Except.error e) ∧
    (∀ (α : Type) (localTime : String → String)
        (schedRes : Except Err (List (MainChan α))),
        get_live_channelsE localTime (Except.error e) schedRes = Except.error e) ∧
    (∀ (α : Type) (localTime : String → String) (live_data : LiveData),
        get_live_channelsE (α := α) localTime (Except.ok live_data) (Except.error e)
          = Except.error e) ∧
    (∀ (env : EpisodesEnv) (url : String),
        episodesE env url (Except.error e) = Except.error e) ∧
    (categoriesE (Except.error e) = Except.error e) ∧
    (∀ (env : CatEnv) (hide_payed : Bool),
        category_contentE env (Except.error e) hide_payed = Except.error e) ∧
    (∀ (env : SearchEnv),
        searchE env (Except.error e) = Except.error e) ∧
    (get_playlist_url_from_episode_page (Except.error e) = Except.error e) := by
  refine ⟨?_, fun _ _ _ => rfl, fun _ _ _ => rfl, fun _ _ => rfl, rfl,
          fun _ _ => rfl, fun _ => rfl, rfl⟩
  intro env fetchRes url h
  simp [get_page_dataE, h]

/-- Witness for C3: a concrete failing fetch propagates out of
`get_page_dataE`. -/
theorem fetch_errors_propagate_witness :
    get_page_dataE envA (fun _ => Except.error { msg := "boom" }) "/watch"
      = Except.error { msg := "boom" } :=
  (fetch_errors_propagate { msg := "boom" }).1 envA
    (fun _ => Except.error { msg := "boom" }) "/watch" rfl

/-- C4: every operation is deterministic: with the same arguments, the
same fetched documents/JSON responses and the same clock/timezone
environment, two runs of each of the eight public operations produce
identical results. -/
theorem operations_deterministic (α : Type) (fenv : FetchEnv)
    (localTime : String → String) (menv : MainPageEnv) (eenv : EpisodesEnv)
    (cenv : CatEnv) (senv : SearchEnv)
    (st1 st2 : ModuleState) (url1 url2 : String)
    (ld1 ld2 : LiveData) (ms1 ms2 : List (MainChan α))
    (hc1 hc2 : List Val) (bd1 bd2 : BrandData)
    (cl1 cl2 : List CatItem) (cp1 cp2 : CatPage) (hp1 hp2 : Bool)
    (fr1 fr2 : Except Err String) (d1 d2 : Option SearchPage)
    (hst : st1 = st2) (hurl : url1 = url2) (hld : ld1 = ld2) (hms : ms1 = ms2)
    (hhc : hc1 = hc2) (hbd : bd1 = bd2) (hcl : cl1 = cl2) (hcp : cp1 = cp2)
    (hhp : hp1 = hp2) (hfr : fr1 = fr2) (hd : d1 = d2) :
    get_page_data fenv st1 url1 = get_page_data fenv st2 url2 ∧
    get_live_channels localTime ld1 ms1 = get_live_channels localTime ld2 ms2 ∧
    main_page_items menv hc1 = main_page_items menv hc2 ∧
    episodes eenv url1 bd1 = episodes eenv url2 bd2 ∧
    categories cl1 = categories cl2 ∧
    category_content cenv cp1 hp1 = category_content cenv cp2 hp2 ∧
    get_playlist_url_from_episode_page fr1 = get_playlist_url_from_episode_page fr2 ∧
    search senv d1 = search senv d2 := by
  subst hst hurl hld hms hhc hbd hcl hcp hhp hfr hd
  exact ⟨rfl, rfl, rfl, rfl, rfl, rfl, rfl, rfl⟩

/-- Witness for C4 at concrete arguments and fetched documents for all
eight operations. -/
theorem operations_deterministic_witness :
    get_page_data envA (initState 0) "/watch" = get_page_data envA (initState 0) "/watch" ∧
    get_live_channels localTimeA liveDataA schedA
        = get_live_channels localTimeA liveDataA schedA ∧
    main_page_items menvA [] = main_page_items menvA [] ∧
    episodes eenvA "/watch" brandA = episodes eenvA "/watch" brandA ∧
    categories catListA = categories catListA ∧
    category_content cenvA catPageA false = category_content cenvA catPageA false ∧
    get_playlist_url_from_episode_page (Except.ok "doc")
        = get_playlist_url_from_episode_page (Except.ok "doc") ∧
    search senvA (some pageA) = search senvA (some pageA) :=
  operations_deterministic Unit envA localTimeA menvA eenvA cenvA senvA
    (initState 0) (initState 0) "/watch" "/watch" liveDataA liveDataA schedA schedA
    [] [] brandA brandA catListA catListA catPageA catPageA false false
    (Except.ok "doc") (Except.ok "doc") (some pageA) (some pageA)
    rfl rfl rfl rfl rfl rfl rfl rfl rfl rfl rfl

/-- C5: no public operation mutates any module-level variable: the
module state (of which `cached_programs` is the only mutable candidate)
is returned unchanged by every operation, so in particular every
module-level variable other than `cached_programs` keeps its value. -/
theorem module_state_unchanged (α : Type) (fenv : FetchEnv) (localTime : String → String)
    (menv : MainPageEnv) (eenv : EpisodesEnv) (cenv : CatEnv) (senv : SearchEnv)
    (st : ModuleState) (url : String) (live_data : LiveData)
    (main_schedule : List (MainChan α)) (heroContent : List Val)
    (brand_data : BrandData) (cat_list : List CatItem) (cat_data : CatPage)
    (hide_payed : Bool) (fetchRes : Except Err String) (data : Option SearchPage) :
    (get_page_data fenv st url).1 = st ∧
    (get_live_channels_st localTime st live_data main_schedule).1 = st ∧
    (main_page_items_st fenv menv st heroContent).1 = st ∧
    (episodes_st fenv eenv st url brand_data).1 = st ∧
    (categories_st fenv st cat_list).1 = st ∧
    (category_content_st fenv cenv st url cat_data hide_payed).1 = st ∧
    (get_playlist_url_from_episode_page_st st fetchRes).1 = st ∧
    (search_st senv st data).1 = st :=
  ⟨rfl, rfl, rfl, rfl, rfl, rfl, rfl, rfl⟩

/-- C6: every listing operation terminates on every finite input: each
is a total function of the fetched data and returns a value. -/
theorem operations_terminate (α : Type) (localTime : String → String)
    (eenv : EpisodesEnv) (cenv : CatEnv) (senv : SearchEnv)
    (url : String) (live_data : LiveData) (main_schedule : List (MainChan α))
    (brand_data : BrandData) (cat_list : List CatItem) (cat_data : CatPage)
    (hide_payed : Bool) (data : Option SearchPage) :
    (∃ v, get_live_channels localTime live_data main_schedule = v) ∧
    (∃ v, episodes eenv url brand_data = v) ∧
    (∃ v, categories cat_list = v) ∧
    (∃ v, category_content cenv cat_data hide_payed = v) ∧
    (∃ v, search senv data = v) :=
  ⟨⟨_, rfl⟩, ⟨_, rfl⟩, ⟨_, rfl⟩, ⟨_, rfl⟩, ⟨_, rfl⟩⟩

/-- C2 counterexample: the claim that every listing operation's items
contain the keys label, art, info and params fails already for
`categories`, whose items carry only label and params. -/
theorem listitem_schema_counterexample :
    (categories catListA).length = 1 ∧
    ((categories catListA).all (fun item =>
        hasKey item "label" && hasKey item "art"
          && hasKey item "info" && hasKey item "params")) = false :=
  ⟨rfl, rfl⟩

/-- C2 (amended): `episodes` and `search` items contain the keys label,
art, info and params; `categories` items contain exactly label and
params; `category_content` yields dictionaries with exactly the keys
playable and show, and it is the show dictionary that contains label,
art, info and params. -/
theorem listitem_schema_amended :
    (∀ (eenv : EpisodesEnv) (url : String) (bd : BrandData)
        (item : List (String × Val)), item ∈ episodes eenv url bd →
        (hasKey item "label" && hasKey item "art"
          && hasKey item "info" && hasKey item "params") = true) ∧
    (∀ (senv : SearchEnv) (d : Option SearchPage)
        (item : List (String × Val)), item ∈ search senv d →
        (hasKey item "label" && hasKey item "art"
          && hasKey item "info" && hasKey item "params") = true) ∧
    (∀ (cat_list : List CatItem) (item : List (String × Val)),
        item ∈ categories cat_list → item.map Prod.fst = ["label", "params"]) ∧
    (∀ (cenv : CatEnv) (cat_data : CatPage) (hide_payed : Bool)
        (item : List (String × Val)),
        item ∈ category_content cenv cat_data hide_payed →
        item.map Prod.fst = ["playable", "show"] ∧
        ∃ s, getKey item "show" = some (Val.vdict s) ∧
          (hasKey s "label" && hasKey s "art"
            && hasKey s "info" && hasKey s "params") = true) := by
  refine ⟨?_, ?_, ?_, ?_⟩
  · intro eenv url bd item hmem
    simp only [episodes] at hmem
    split at hmem
    · simp at hmem
    · obtain ⟨s, -, rfl⟩ := List.mem_map.1 hmem
      rfl
  · intro senv d item hmem
    match d with
    | none => simp [search] at hmem
    | some page =>
      simp only [search] at hmem
      obtain ⟨r, -, hr⟩ := List.mem_filterMap.1 hmem
      unfold routeResult at hr
      split at hr
      · obtain rfl := Option.some.inj hr
        rfl
      · split at hr
        · obtain rfl := Option.some.inj hr
          rfl
        · exact Option.noConfusion hr
  · intro cat_list item hmem
    obtain ⟨c, -, rfl⟩ := List.mem_map.1 hmem
    rfl
  · intro cenv cat_data hide_payed item hmem
    simp only [category_content] at hmem
    obtain ⟨prog, -, hpr⟩ := List.mem_filterMap.1 hmem
    split at hpr
    · obtain rfl := Option.some.inj hpr
      exact ⟨rfl, cc_show_item cenv cat_data.pathSegment prog prog.description, rfl, rfl⟩
    · split at hpr
      · exact Option.noConfusion hpr
      · obtain rfl := Option.some.inj hpr
        exact ⟨rfl, cc_show_item cenv cat_data.pathSegment prog
          (prog.description ++ "\n\n" ++ premiumMarker), rfl, rfl⟩

/-- Witness for the amended C2 at concrete pages: one episodes item,
one search item, one categories item and one category-content item. -/
theorem listitem_schema_amended_witness :
    (hasKey epItemA "label" && hasKey epItemA "art"
      && hasKey epItemA "info" && hasKey epItemA "params") = true ∧
    (hasKey searchItemA "label" && hasKey searchItemA "art"
      && hasKey searchItemA "info" && hasKey searchItemA "params") = true ∧
    catItemA.map Prod.fst = ["label", "params"] ∧
    (ccItemA.map Prod.fst = ["playable", "show"] ∧
      ∃ s, getKey ccItemA "show" = some (Val.vdict s) ∧
        (hasKey s "label" && hasKey s "art"
          && hasKey s "info" && hasKey s "params") = true) :=
  ⟨listitem_schema_amended.1 eenvA "u" brandA epItemA (List.Mem.head _),
   listitem_schema_amended.2.1 senvA (some pageA) searchItemA (List.Mem.head _),
   listitem_schema_amended.2.2.1 catListA catItemA (List.Mem.head _),
   listitem_schema_amended.2.2.2 cenvA catPageA false ccItemA (List.Mem.head _)⟩

/-- C7: every channel returned by `get_live_channels` has its backdrop
set to the now/next document's backdrop URL and carries a slot; every
channel whose slot is built from the now/next data — every
non-simulcast channel, and every simulcast channel with no matching
entry in the main live schedule — gets a slot list of exactly two
programme entries, each with `orig_start` equal to `None`. -/
theorem live_channels_backdrop_slot (α : Type) (localTime : String → String)
    (live_data : LiveData) (main_schedule : List (MainChan α)) :
    (∀ ch ∈ get_live_channels localTime live_data main_schedule,
        ch.backdrop = live_data.backdrop) ∧
    (∀ c ∈ live_data.channels,
        (c.channelType ≠ "simulcast" ∨ findMainSlot main_schedule c.id = none) →
        ∃ l, (processChannel localTime live_data.backdrop main_schedule c).slot
               = ChannelSlot.nowNext l ∧
             l.length = 2 ∧ ∀ p ∈ l, p.orig_start = none) := by
  constructor
  · intro ch hch
    obtain ⟨c, -, rfl⟩ := List.mem_map.1 hch
    unfold processChannel
    split
    · split
      · split <;> rfl
      · rfl
    · rfl
  · intro c _hmem hc
    refine ⟨[buildProg localTime c.slots.now, buildProg localTime c.slots.next],
      ?_, rfl, ?_⟩
    · cases hbeq : (c.channelType == "simulcast") with
      | false => simp [processChannel, hbeq]
      | true =>
        cases hc with
        | inl hne => exact absurd (eq_of_beq hbeq) hne
        | inr hnone => simp [processChannel, hbeq, hnone]
    · intro p hp
      rcases List.mem_pair.1 hp with rfl | rfl <;> rfl

/-- Witness for C7 at a concrete now/next document with one fast
channel and an empty main schedule. -/
theorem live_channels_backdrop_slot_witness :
    (processChannel localTimeA "bg" schedA chanA).backdrop = "bg" ∧
    ∃ l, (processChannel localTimeA "bg" schedA chanA).slot = ChannelSlot.nowNext l ∧
         l.length = 2 ∧ ∀ p ∈ l, p.orig_start = none :=
  ⟨(live_channels_backdrop_slot Unit localTimeA liveDataA schedA).1
      (processChannel localTimeA "bg" schedA chanA) (List.Mem.head _),
   (live_channels_backdrop_slot Unit localTimeA liveDataA schedA).2
      chanA (List.Mem.head _) (Or.inl (by decide))⟩

/-- C8: with `hide_payed=True`, `category_content` yields exactly one
item per free-tier programme, its plot the plain description; with
`hide_payed=False` it yields one item per programme regardless of tier,
appending the premium marker to the plot of every non-free one. -/
theorem category_content_tier_filter (env : CatEnv) (cat_data : CatPage) :
    category_content env cat_data true
      = (cat_data.programmes.filter (fun p => decide ("FREE" ∈ p.tier))).map
          (fun p => cc_yield env cat_data.pathSegment p p.description) ∧
    category_content env cat_data false
      = cat_data.programmes.map (fun p =>
          cc_yield env cat_data.pathSegment p
            (if "FREE" ∈ p.tier then p.description
             else p.description ++ "\n\n" ++ premiumMarker)) := by
  obtain ⟨category, ps⟩ := cat_data
  have key1 : ∀ ps : List Programme,
      ps.filterMap (fun prog =>
        if "FREE" ∈ prog.tier then some (cc_yield env category prog prog.description)
        else none)
      = (ps.filter (fun p => decide ("FREE" ∈ p.tier))).map
          (fun p => cc_yield env category p p.description) := by
    intro ps
    induction ps with
    | nil => rfl
    | cons p ps ih =>
      by_cases h : "FREE" ∈ p.tier
      · simp [List.filterMap_cons, List.filter_cons, h, ih]
      · simp [List.filterMap_cons, List.filter_cons, h, ih]
  have key2 : ∀ ps : List Programme,
      ps.filterMap (fun prog =>
        if "FREE" ∈ prog.tier then some (cc_yield env category prog prog.description)
        else some (cc_yield env category prog (prog.description ++ "\n\n" ++ premiumMarker)))
      = ps.map (fun p => cc_yield env category p
          (if "FREE" ∈ p.tier then p.description
           else p.description ++ "\n\n" ++ premiumMarker)) := by
    intro ps
    induction ps with
    | nil => rfl
    | cons p ps ih =>
      by_cases h : "FREE" ∈ p.tier
      · simp [List.filterMap_cons, h, ih]
      · simp [List.filterMap_cons, h, ih]
  exact ⟨key1 ps, key2 ps⟩

/-- C9: `search` yields only items whose entity type is programme or
special; a result of any other entity type is skipped without aborting
the remaining results; and a `None` fetch result yields no items. -/
theorem search_entity_routing (env : SearchEnv) :
    (search env none = []) ∧
    (∀ (d : SearchPage) (item : List (String × Val)),
        item ∈ search env (some d) →
        getKey item "entity_type" = some (Val.vstr "programme") ∨
        getKey item "entity_type" = some (Val.vstr "special")) ∧
    (∀ (pre post : List SearchResult) (bad : SearchResult),
        bad.entityType ≠ "programme" → bad.entityType ≠ "special" →
        search env (some { results := pre ++ bad :: post })
          = search env (some { results := pre ++ post })) := by
  refine ⟨rfl, ?_, ?_⟩
  · intro d item hmem
    simp only [search] at hmem
    obtain ⟨r, -, hr⟩ := List.mem_filterMap.1 hmem
    unfold routeResult at hr
    split at hr
    · obtain rfl := Option.some.inj hr
      left
      rfl
    · split at hr
      · obtain rfl := Option.some.inj hr
        right
        rfl
      · exact Option.noConfusion hr
  · intro pre post bad h1 h2
    have hroute : routeResult env bad = none := by
      unfold routeResult
      simp [h1, h2]
    simp only [search]
    rw [List.filterMap_append, List.filterMap_append, List.filterMap_cons, hroute]

/-- Witness for C9: the one programme result of a concrete search page
is typed programme, and a concrete unknown-entity result is skipped. -/
theorem search_entity_routing_witness :
    (getKey searchItemA "entity_type" = some (Val.vstr "programme") ∨
     getKey searchItemA "entity_type" = some (Val.vstr "special")) ∧
    search senvA (some { results := [badResultA] })
      = search senvA (some { results := [] }) :=
  ⟨(search_entity_routing senvA).2.1 pageA searchItemA (List.Mem.head _),
   (search_entity_routing senvA).2.2 [] [] badResultA (by decide) (by decide)⟩
